import Mathlib

/-!
Verification of the data-model layer of the django-feed-reader repository
(`feeds/models.py`), as a shallow embedding in Lean.

Modelling conventions:
* Django model rows become Lean structures; a `CharField`/`TextField` is a
  `String` (wrapped in `Option` when `null=True`), a `DateTimeField` is an
  `Int` counting seconds relative to the Unix epoch (wrapped in `Option`
  when `null=True`), `PositiveIntegerField` is `Nat`, `IntegerField` is
  `Int`, `BooleanField` is `Bool`, and a foreign key is the `Nat` primary
  key of the target row (wrapped in `Option` when `null=True`).
* A method that mutates a row and saves it becomes a function returning the
  updated row; a `@property` becomes a pure function of the row.  The two
  properties that call `datetime.datetime.utcnow()` (`garden_style` and
  `health_box`) take the current time as an explicit extra argument `now`.
* The database is a `DB`: a list of `Source` rows and a list of `Post` rows;
  ORM query sets (`self.posts.filter(...)`, aggregates) become list
  operations over it.
-/

namespace FeedReader

/-- A row of the `Source` model: one field per Django model field of
`class Source` in `feeds/models.py` (the `tags` many-to-many field is kept
as the list of `Tag` primary keys). -/
structure Source where
  id : Nat
  name : Option String
  site_url : Option String
  feed_url : String
  image_url : Option String
  description : Option String
  last_polled : Option Int
  due_poll : Int
  etag : Option String
  last_modified : Option String
  last_result : Option String
  interval : Nat
  last_success : Option Int
  last_change : Option Int
  live : Bool
  status_code : Nat
  last_302_url : Option String
  last_302_start : Option Int
  max_index : Int
  num_subs : Int
  is_cloudflare : Bool
  category : Option Nat
  tags : List Nat
deriving Repr, DecidableEq

/-- A row of the `Post` model: one field per Django model field of
`class Post` in `feeds/models.py`. -/
structure Post where
  id : Nat
  source : Nat
  title : String
  body : String
  link : Option String
  found : Int
  created : Int
  guid : Option String
  author : Option String
  index : Int
  image_url : Option String
  read : Bool
  starred : Bool
  tags : List Nat
deriving Repr, DecidableEq

/-- A row of the `Category` model. -/
structure Category where
  id : Nat
  name : String
deriving Repr, DecidableEq

/-- The relevant database tables: `Source` rows and `Post` rows
(`Post.source` is the foreign key into `sources`). -/
structure DB where
  sources : List Source
  posts : List Post
deriving Repr, DecidableEq

/-- `Post.mark_read`: sets `read = True` and saves (only the `read` column
is written, via `update_fields=['read']`). -/
def Post.mark_read (p : Post) : Post :=
  { p with read := true }

/-- `Post.unmark_read`: sets `read = False` and saves (only the `read`
column is written). -/
def Post.unmark_read (p : Post) : Post :=
  { p with read := false }

/-- `Post.toggle_starred`: sets `starred = not starred` and saves (only the
`starred` column is written). -/
def Post.toggle_starred (p : Post) : Post :=
  { p with starred := !p.starred }

/-- `Source.best_link`: the html link else the feed link
(`if self.site_url is None or self.site_url == '': return self.feed_url
else: return self.site_url`). -/
def Source.best_link (s : Source) : String :=
  match s.site_url with
  | none => s.feed_url
  | some u => if u = "" then s.feed_url else u

/-- `Source.display_name`: `best_link` when `name` is `None` or `""`,
else `name`. -/
def Source.display_name (s : Source) : String :=
  match s.name with
  | none => s.best_link
  | some n => if n = "" then s.best_link else n

/-- `Source.unread_posts_count`: `self.posts.filter(read=False).count()`. -/
def Source.unread_posts_count (s : Source) (db : DB) : Nat :=
  (db.posts.filter (fun p => p.source == s.id && !p.read)).length

/-- `Category.unread_posts_count`:
`Source.objects.filter(category=self).aggregate(Count('posts',
filter=Q(posts__read=False)))`.  The SQL aggregate joins each `Source` of
the category with its `Post` rows and counts the join rows whose post has
`read = False`, i.e. it sums, over the sources of the category, the number
of unread posts of that source. -/
def Category.unread_posts_count (c : Category) (db : DB) : Nat :=
  ((db.sources.filter (fun s => s.category == some c.id)).map
    (fun s => (db.posts.filter (fun p => p.source == s.id && !p.read)).length)).sum

/-- Python's `"%0*x"` padding: left-pad a digit run with `'0'` up to
width `w`. -/
def padZeros (w : Nat) (ds : List Char) : List Char :=
  List.replicate (w - ds.length) '0' ++ ds

/-- Python's `"%02x" % v` for an arbitrary `int` value `v`: lowercase
hexadecimal digits of `|v|`, zero-padded so that the whole rendering
(sign included) is at least two characters wide. -/
def pyHex2 (v : Int) : String :=
  if v < 0 then
    String.mk ('-' :: padZeros 1 (Nat.toDigits 16 v.natAbs))
  else
    String.mk (padZeros 2 (Nat.toDigits 16 v.natAbs))

/-- `timedelta.days` of the timedelta `now - t` (both in seconds): Python
normalises a `timedelta` so that `.days` is the floor of the duration in
days, also when it is negative. -/
def timedeltaDays (now t : Int) : Int :=
  (now - t).fdiv 86400

/-- Python's `int(x / 2)` on an `int` `x`: true division then truncation
toward zero. -/
def pyHalf (x : Int) : Int :=
  x.tdiv 2

/-- `Source.garden_style` (a `@property` that reads
`datetime.datetime.utcnow()`; the current time is the explicit argument
`now`). -/
def Source.garden_style (s : Source) (now : Int) : String :=
  if !s.live then
    "background-color:#ccc;"
  else
    match s.last_change, s.last_success with
    | some lc, some _ =>
        let days := pyHalf (timedeltaDays now lc)
        let col := if 255 - days < 0 then 0 else 255 - days
        let css := "background-color:#ff" ++ pyHex2 col ++ pyHex2 col
        if col < 128 then css ++ ";color:white" else css
    | _, _ => "background-color:#D00;color:white"

/-- `Source.health_box` (a `@property` that reads
`datetime.datetime.utcnow()`; the current time is the explicit argument
`now`). -/
def Source.health_box (s : Source) (now : Int) : String :=
  if !s.live then
    "#ccc;"
  else
    match s.last_change, s.last_success with
    | some lc, some _ =>
        let days := pyHalf (timedeltaDays now lc)
        let red := if days > 255 then 255 else days
        let green := if 255 - days < 0 then 0 else 255 - days
        "#" ++ pyHex2 red ++ pyHex2 green ++ "00"
    | _, _ => "#F00;"

/-- `1900-01-01T00:00:00Z` in seconds relative to the Unix epoch: the 70
years from 1900 to 1970 contain 17 leap days, so the offset is
`(70 * 365 + 17) * 86400 = 2208988800` seconds before the epoch. -/
def datetime19000101 : Int := -2208988800

/-- A `Source` row created with only the required field `feed_url`: every
other column takes the default declared on the model
(`due_poll=datetime(1900,1,1)`, `interval=400`, `live=True`,
`status_code=0`, `max_index=0`, `num_subs=1`, `is_cloudflare=False`,
nullable columns `NULL`). -/
def Source.create (id : Nat) (feed_url : String) : Source where
  id := id
  name := none
  site_url := none
  feed_url := feed_url
  image_url := none
  description := none
  last_polled := none
  due_poll := datetime19000101
  etag := none
  last_modified := none
  last_result := none
  interval := 400
  last_success := none
  last_change := none
  live := true
  status_code := 0
  last_302_url := none
  last_302_start := none
  max_index := 0
  num_subs := 1
  is_cloudflare := false
  category := none
  tags := []

/-- A `Post` row created with its non-defaulted columns given explicitly
and no explicit flags: `read` and `starred` take their declared defaults
`False`. -/
def Post.create (id source : Nat) (title body : String) (link : Option String)
    (found created : Int) (guid author : Option String) (index : Int)
    (image_url : Option String) : Post where
  id := id
  source := source
  title := title
  body := body
  link := link
  found := found
  created := created
  guid := guid
  author := author
  index := index
  image_url := image_url
  read := false
  starred := false
  tags := []

/-- `Post.Meta.ordering = ["index"]`: the default enumeration order of a
collection of posts sorts them by the `index` column ascending. -/
def defaultOrder (posts : List Post) : List Post :=
  posts.mergeSort (fun p q => decide (p.index ≤ q.index))

/-- The operations the model exposes: the three mutators of `Post` and the
derived-property reads of `Source`.  A mutator targets the post with the
given primary key; a read targets the source with the given primary key
(the clock-reading properties carry the time of the read). -/
inductive Op where
  | markRead (pid : Nat)
  | unmarkRead (pid : Nat)
  | toggleStarred (pid : Nat)
  | readDisplayName (sid : Nat)
  | readGardenStyle (sid : Nat) (now : Int)
  | readHealthBox (sid : Nat) (now : Int)
  | readUnreadCount (sid : Nat)
deriving Repr, DecidableEq

/-- Apply a `Post` mutator to the row with primary key `pid`
(`save(update_fields=...)` writes that row back; no other table is
touched). -/
def updatePost (pid : Nat) (f : Post → Post) (db : DB) : DB :=
  { db with posts := db.posts.map (fun p => if p.id == pid then f p else p) }

/-- Look up a `Source` row by primary key. -/
def findSource (db : DB) (sid : Nat) : Option Source :=
  db.sources.find? (fun s => s.id == sid)

/-- Run one operation: a mutator rewrites the targeted `Post` row, a
derived-property read computes its value and leaves the database as it
was.  The first component is the value the operation returns to its
caller (`none` for the mutators, which return nothing). -/
def Op.run : Op → DB → Option String × DB
  | .markRead pid, db => (none, updatePost pid Post.mark_read db)
  | .unmarkRead pid, db => (none, updatePost pid Post.unmark_read db)
  | .toggleStarred pid, db => (none, updatePost pid Post.toggle_starred db)
  | .readDisplayName sid, db => ((findSource db sid).map Source.display_name, db)
  | .readGardenStyle sid now, db => ((findSource db sid).map (fun s => s.garden_style now), db)
  | .readHealthBox sid now, db => ((findSource db sid).map (fun s => s.health_box now), db)
  | .readUnreadCount sid, db => ((findSource db sid).map (fun s => toString (s.unread_posts_count db)), db)

/-- Run a sequence of operations left to right. -/
def runOps (ops : List Op) (db : DB) : DB :=
  ops.foldl (fun d op => (op.run d).2) db

/-- One uppercase hexadecimal digit, as produced by Python's `"%XX"`
percent-escapes in `urllib.parse.quote_plus`. -/
def hexUpperDigit (n : Nat) : Char :=
  if n < 10 then Char.ofNat (48 + n) else Char.ofNat (55 + n)

/-- The bytes `urllib.parse` never escapes: ASCII letters, digits and
`_.-~`. -/
def isAlwaysSafe (n : Nat) : Bool :=
  (65 ≤ n && n ≤ 90) || (97 ≤ n && n ≤ 122) || (48 ≤ n && n ≤ 57) ||
  n == 95 || n == 46 || n == 45 || n == 126

/-- `urllib.parse.quote_plus` on one byte of the UTF-8 encoding: space
becomes `+`, a safe byte stands for itself, anything else becomes a
percent-escape with two uppercase hexadecimal digits. -/
def quotePlusByte (n : Nat) : String :=
  if n == 32 then "+"
  else if isAlwaysSafe n then String.singleton (Char.ofNat n)
  else String.mk ['%', hexUpperDigit (n / 16), hexUpperDigit (n % 16)]

/-- `urllib.parse.quote_plus` of a string: escape each byte of its UTF-8
encoding. -/
def pyQuotePlus (s : String) : String :=
  String.join (s.toUTF8.toList.map (fun b => quotePlusByte b.toNat))

/-- `urllib.parse.urlencode({"X": title})`: the single pair renders as
`"X=" + quote_plus(title)`. -/
def pyUrlencodeX (title : String) : String :=
  "X=" ++ pyQuotePlus title

/-- The final value of the local variable `ret` in `Post.title_url_encoded`:
the url-encoded title with the leading `"X="` stripped when the encoding is
longer than two characters. -/
def Post.title_encoded_value (p : Post) : String :=
  let ret := pyUrlencodeX p.title
  if ret.length > 2 then ret.drop 2 else ret

/-- `Post.title_url_encoded`: the property body computes `ret` (and on an
encoding error would log and set `ret = ""`), but contains no `return`
statement, so the property always yields Python's `None`. -/
def Post.title_url_encoded (p : Post) : Option String :=
  let _ret := p.title_encoded_value
  none

/-- Two lowercase hexadecimal digits for a byte value, as the claim about
`health_box` words it ("RR … and GG … rendered as two lowercase hex digits
each").  Used only on the spec side of the refinement. -/
def specHexPair (n : Nat) : String :=
  String.mk [Nat.digitChar (n / 16), Nat.digitChar (n % 16)]

/-- The claimed description of `Source.health_box`, written from the
claim's words: `"#ccc;"` when not live, `"#F00;"` when live but
`last_change` or `last_success` is unset, else `"#RRGG00"` with
`d = floor(days elapsed since last_change / 2)`, `RR = min(d, 255)` and
`GG = max(255 - d, 0)` as two lowercase hex digits each. -/
def health_box_claimed (live : Bool) (last_change last_success : Option Int)
    (now : Int) : String :=
  if live = false then "#ccc;"
  else
    match last_change, last_success with
    | some lc, some _ =>
        let d : Int := ((now - lc).fdiv 86400).fdiv 2
        "#" ++ specHexPair (min d 255).toNat ++ specHexPair (max (255 - d) 0).toNat ++ "00"
    | _, _ => "#F00;"

/-- A concrete live source whose `last_change`/`last_success` are set: used
to exhibit the clock dependence of `health_box`/`garden_style`. -/
def staleSource : Source :=
  { Source.create 9 "http://c/feed" with last_change := some 0, last_success := some 0 }

/-- A concrete named source with set timestamps. -/
def sourceFieldsA : Source :=
  { Source.create 7 "http://a/feed" with
    name := some "Feed A", last_change := some 100, last_success := some 100 }

/-- A second source row, distinct from `sourceFieldsA` (different primary
key and `etag`) but with the same `live`/`last_change`/`last_success`/
`name`/`site_url`/`feed_url` fields. -/
def sourceFieldsB : Source :=
  { Source.create 8 "http://a/feed" with
    name := some "Feed A", last_change := some 100, last_success := some 100,
    etag := some "W-xyz" }

/-- A concrete live source polled since the epoch. -/
def liveSource : Source :=
  { Source.create 3 "http://w/feed" with last_change := some 0, last_success := some 0 }

/-- A concrete source with a non-empty `name`. -/
def namedSource : Source :=
  { Source.create 4 "http://n/feed" with name := some "My Feed" }

/-- A concrete database: sources 1 and 2 belong to category 10, source 3 to
no category; posts 1 and 2 belong to source 1 (one unread, one read), post
3 to source 2 (unread), post 4 to source 3 (unread). -/
def dbW : DB where
  sources :=
    [{ Source.create 1 "http://one/feed" with category := some 10 },
     { Source.create 2 "http://two/feed" with category := some 10 },
     Source.create 3 "http://three/feed"]
  posts :=
    [Post.create 1 1 "t1" "b1" none 0 0 none none 1 none,
     { Post.create 2 1 "t2" "b2" none 0 0 none none 2 none with read := true },
     Post.create 3 2 "t3" "b3" none 0 0 none none 1 none,
     Post.create 4 3 "t4" "b4" none 0 0 none none 1 none]

end FeedReader

namespace FeedReader

/-! ## Helper lemmas -/

/-- One operation never touches the `sources` table. -/
lemma Op.run_sources (op : Op) (db : DB) : ((op.run db).2).sources = db.sources := by
  cases op <;> rfl

/-- A sequence of operations never touches the `sources` table. -/
lemma runOps_sources (ops : List Op) (db : DB) : (runOps ops db).sources = db.sources := by
  induction ops generalizing db with
  | nil => rfl
  | cons op ops ih => exact (ih ((op.run db).2)).trans (Op.run_sources op db)

/-- Distribute a conjunction over a disjunction of `Bool`s, commuting the
first disjunct. -/
lemma bool_reorg (a b c : Bool) : (b && (a || c)) = ((a && b) || (b && c)) := by
  cases a <;> cases b <;> cases c <;> rfl

/-- The length of a filter by a disjunction of pointwise-exclusive
predicates is the sum of the lengths of the two filters. -/
lemma filter_or_disjoint {α : Type} (P : List α) (f g : α → Bool)
    (hx : ∀ p ∈ P, ¬(f p = true ∧ g p = true)) :
    (P.filter (fun p => f p || g p)).length = (P.filter f).length + (P.filter g).length := by
  induction P with
  | nil => rfl
  | cons p ps ih =>
    have hx' : ∀ q ∈ ps, ¬(f q = true ∧ g q = true) :=
      fun q hq => hx q (List.mem_cons_of_mem _ hq)
    have hp := hx p (List.mem_cons_self p ps)
    rcases hf : f p <;> rcases hg : g p
    · simp [List.filter_cons, hf, hg, ih hx']
    · simp [List.filter_cons, hf, hg, ih hx']; omega
    · simp [List.filter_cons, hf, hg, ih hx']; omega
    · exact absurd ⟨hf, hg⟩ hp

/-- Summing, over the sources of a list that satisfy `q`, the number of
posts of that source satisfying `m`, equals the number of posts satisfying
`m` whose source is some member of the list satisfying `q` — provided the
source primary keys are distinct. -/
lemma sum_per_source_counts (P : List Post) (q : Source → Bool) (m : Post → Bool) :
    ∀ L : List Source, (L.map Source.id).Nodup →
      ((L.filter q).map
        (fun s => (P.filter (fun p => p.source == s.id && m p)).length)).sum
      = (P.filter (fun p => m p && L.any (fun s => p.source == s.id && q s))).length := by
  intro L
  induction L with
  | nil => intro _; simp
  | cons s L ih =>
    intro hnd
    rw [List.map_cons, List.nodup_cons] at hnd
    have h1 : s.id ∉ L.map Source.id := hnd.1
    rcases hq : q s
    · rw [List.filter_cons_of_neg (by simp [hq]), ih hnd.2]
      congr 1
      apply List.filter_congr
      intro p _
      simp [hq]
    · rw [List.filter_cons_of_pos (by simp [hq]), List.map_cons, List.sum_cons, ih hnd.2]
      have e1 : P.filter (fun p => m p && (s :: L).any (fun t => p.source == t.id && q t))
          = P.filter (fun p => (p.source == s.id && m p)
              || (m p && L.any (fun t => p.source == t.id && q t))) := by
        apply List.filter_congr
        intro p _
        rw [List.any_cons, hq, Bool.and_true]
        exact bool_reorg _ _ _
      rw [e1, filter_or_disjoint]
      intro p _ hcontra
      rcases hcontra with ⟨hA, hB⟩
      rw [Bool.and_eq_true, beq_iff_eq] at hA
      rw [Bool.and_eq_true, List.any_eq_true] at hB
      rcases hB.2 with ⟨t, htL, hts⟩
      rw [Bool.and_eq_true, beq_iff_eq] at hts
      have h2 : t.id = s.id := by rw [← hts.1, hA.1]
      exact h1 (h2 ▸ List.mem_map_of_mem Source.id htL)

set_option maxRecDepth 4096 in
/-- On every byte value, Python's `"%02x"` rendering agrees with the
two-lowercase-hex-digit rendering of the claim. -/
lemma pyHex2_table : ∀ i : Fin 256, pyHex2 (Int.ofNat i.val) = specHexPair i.val := by
  decide

/-- On a nonnegative value at most 255, Python's `"%02x"` rendering agrees
with the two-lowercase-hex-digit rendering of the claim. -/
lemma pyHex2_eq_specHexPair (v : Int) (h0 : 0 ≤ v) (h255 : v ≤ 255) :
    pyHex2 v = specHexPair v.toNat := by
  have hv : Int.ofNat v.toNat = v := Int.toNat_of_nonneg h0
  have hlt : v.toNat < 256 := by omega
  have := pyHex2_table ⟨v.toNat, hlt⟩
  rwa [hv] at this

/-! ## Claim theorems -/

/-- C1: no operation the model exposes (`mark_read`, `unmark_read`,
`toggle_starred`, or a derived-property read) ever decreases a Source's
`max_index`: a single operation leaves every Source's `max_index` exactly
as it was, a whole sequence of operations does too, and extending a
sequence by further operations leaves the `max_index` column of every
Source unchanged — so along every operation sequence `max_index` is
non-decreasing. -/
theorem max_index_monotone_over_operations (op : Op) (ops pre suf : List Op) (db : DB) :
    ((op.run db).2).sources.map Source.max_index = db.sources.map Source.max_index ∧
    (runOps ops db).sources.map Source.max_index = db.sources.map Source.max_index ∧
    (runOps (pre ++ suf) db).sources.map Source.max_index
      = (runOps pre db).sources.map Source.max_index := by
  refine ⟨?_, ?_, ?_⟩
  · rw [Op.run_sources]
  · rw [runOps_sources]
  · rw [runOps_sources, runOps_sources]

/-- C2: `mark_read` sets `read` to `true`, `unmark_read` sets `read` to
`false`, each leaves `starred`, `title`, `body`, `guid`, `index`,
`source`, `found` and `created` unchanged, and `unmark_read` after
`mark_read` restores `read = false`. -/
theorem mark_read_unmark_read_correct (p : Post) :
    p.mark_read.read = true ∧ p.unmark_read.read = false ∧
    p.mark_read.starred = p.starred ∧ p.mark_read.title = p.title ∧
    p.mark_read.body = p.body ∧ p.mark_read.guid = p.guid ∧
    p.mark_read.index = p.index ∧ p.mark_read.source = p.source ∧
    p.mark_read.found = p.found ∧ p.mark_read.created = p.created ∧
    p.unmark_read.starred = p.starred ∧ p.unmark_read.title = p.title ∧
    p.unmark_read.body = p.body ∧ p.unmark_read.guid = p.guid ∧
    p.unmark_read.index = p.index ∧ p.unmark_read.source = p.source ∧
    p.unmark_read.found = p.found ∧ p.unmark_read.created = p.created ∧
    p.mark_read.unmark_read.read = false :=
  ⟨rfl, rfl, rfl, rfl, rfl, rfl, rfl, rfl, rfl, rfl, rfl, rfl, rfl, rfl, rfl, rfl,
   rfl, rfl, rfl⟩

/-- C3: `toggle_starred` negates `starred`, changes no other field (in
particular not `read`), and applying it twice returns `starred` to its
original value. -/
theorem toggle_starred_correct (p : Post) :
    p.toggle_starred.starred = !p.starred ∧
    p.toggle_starred.read = p.read ∧ p.toggle_starred.title = p.title ∧
    p.toggle_starred.body = p.body ∧ p.toggle_starred.guid = p.guid ∧
    p.toggle_starred.index = p.index ∧ p.toggle_starred.source = p.source ∧
    p.toggle_starred.found = p.found ∧ p.toggle_starred.created = p.created ∧
    p.toggle_starred.toggle_starred.starred = p.starred := by
  refine ⟨rfl, rfl, rfl, rfl, rfl, rfl, rfl, rfl, rfl, ?_⟩
  simp [Post.toggle_starred]

/-- C4 counterexample: `health_box` and `garden_style` are not functions of
the stored fields alone — on the very same Source row (`staleSource`,
live, with `last_change = last_success = some 0`) they return different
strings when evaluated at time `0` and at time `51840000` (600 days
later), so their value depends on the current clock. -/
theorem health_box_depends_on_clock :
    staleSource.health_box 0 ≠ staleSource.health_box 51840000 ∧
    staleSource.garden_style 0 ≠ staleSource.garden_style 51840000 := by
  constructor <;> decide

/-- C4 (amended): `display_name` is a pure function of the stored fields
(`name`, `site_url`, `feed_url`), and `health_box` and `garden_style` are
pure functions of the stored fields (`live`, `last_change`,
`last_success`) together with the evaluation time: two Sources with equal
values on those fields give equal results at any one evaluation time,
though the clock-reading properties may change as time passes. -/
theorem derived_props_determined_by_fields (s1 s2 : Source) (now : Int)
    (hl : s1.live = s2.live) (hc : s1.last_change = s2.last_change)
    (hs : s1.last_success = s2.last_success) (hn : s1.name = s2.name)
    (hu : s1.site_url = s2.site_url) (hf : s1.feed_url = s2.feed_url) :
    s1.health_box now = s2.health_box now ∧
    s1.garden_style now = s2.garden_style now ∧
    s1.display_name = s2.display_name := by
  refine ⟨?_, ?_, ?_⟩ <;>
    simp only [Source.health_box, Source.garden_style, Source.display_name,
      Source.best_link, hl, hc, hs, hn, hu, hf]

/-- C4 witness: two distinct Source rows (different primary key and
`etag`) with equal `live`/`last_change`/`last_success`/`name`/`site_url`/
`feed_url` fields agree on `health_box`, `garden_style` and
`display_name` at time `86400`. -/
theorem derived_props_determined_by_fields_witness :
    sourceFieldsA.health_box 86400 = sourceFieldsB.health_box 86400 ∧
    sourceFieldsA.garden_style 86400 = sourceFieldsB.garden_style 86400 ∧
    sourceFieldsA.display_name = sourceFieldsB.display_name :=
  derived_props_determined_by_fields sourceFieldsA sourceFieldsB 86400
    rfl rfl rfl rfl rfl rfl

/-- C5: whenever the stored `last_change` does not lie in the future of the
evaluation time, `health_box` returns exactly what the claim describes:
`"#ccc;"` when not live, `"#F00;"` when live with `last_change` or
`last_success` unset, else `"#RRGG00"` with
`d = floor(days elapsed since last_change / 2)`, `RR = min(d, 255)` and
`GG = max(255 - d, 0)` as two lowercase hex digits each. -/
theorem health_box_matches_claimed_formula (s : Source) (now : Int)
    (h : ∀ lc, s.last_change = some lc → lc ≤ now) :
    s.health_box now = health_box_claimed s.live s.last_change s.last_success now := by
  rcases hl : s.live
  · simp [Source.health_box, health_box_claimed, hl]
  · rcases hc : s.last_change with _ | lc
    · rcases hs : s.last_success with _ | ls <;>
        simp [Source.health_box, health_box_claimed, hl, hc, hs]
    · rcases hs : s.last_success with _ | ls
      · simp [Source.health_box, health_box_claimed, hl, hc, hs]
      · have hle : lc ≤ now := h lc hc
        have hcode : pyHalf (timedeltaDays now lc) = ((now - lc) / 86400) / 2 := by
          unfold pyHalf timedeltaDays
          rw [Int.fdiv_eq_ediv _ (by norm_num)]
          exact Int.tdiv_eq_ediv (Int.ediv_nonneg (by omega) (by norm_num)) (by norm_num)
        have hclaim : ((now - lc).fdiv 86400).fdiv 2 = ((now - lc) / 86400) / 2 := by
          rw [Int.fdiv_eq_ediv _ (by norm_num), Int.fdiv_eq_ediv _ (by norm_num)]
        have hD : 0 ≤ ((now - lc) / 86400) / 2 :=
          Int.ediv_nonneg (Int.ediv_nonneg (by omega) (by norm_num)) (by norm_num)
        simp only [Source.health_box, health_box_claimed, hl, hc, hs,
          Bool.not_true, Bool.false_eq_true, if_false]
        rw [hcode, hclaim]
        have hred : pyHex2 (if ((now - lc) / 86400) / 2 > 255 then 255
              else ((now - lc) / 86400) / 2)
            = specHexPair (min (((now - lc) / 86400) / 2) 255).toNat := by
          rw [pyHex2_eq_specHexPair _ (by split_ifs <;> omega) (by split_ifs <;> omega)]
          congr 1
          split_ifs <;> omega
        have hgrn : pyHex2 (if 255 - ((now - lc) / 86400) / 2 < 0 then 0
              else 255 - ((now - lc) / 86400) / 2)
            = specHexPair (max (255 - ((now - lc) / 86400) / 2) 0).toNat := by
          rw [pyHex2_eq_specHexPair _ (by split_ifs <;> omega) (by split_ifs <;> omega)]
          congr 1
          split_ifs <;> omega
        rw [hred, hgrn]
        simp

/-- C5 witness: on the concrete live source `liveSource`
(`last_change = last_success = some 0`) evaluated at `864000` (ten days
after `last_change`), `health_box` agrees with the claimed formula. -/
theorem health_box_matches_claimed_formula_witness :
    liveSource.health_box 864000 = health_box_claimed true (some 0) (some 0) 864000 :=
  health_box_matches_claimed_formula liveSource 864000
    (fun lc hlc => by have h0 : (0 : Int) = lc := Option.some.inj hlc; omega)

/-- C6: a Source created with only its required `feed_url` receives the
declared defaults — `due_poll` is 1900-01-01 UTC (a timestamp before the
Unix epoch, hence earlier than any real poll time), `interval = 400`,
`live = true`, `max_index = 0`, `status_code = 0`,
`is_cloudflare = false` — and a Post created without explicit flags
receives `read = false` and `starred = false`. -/
theorem creation_defaults (id pid src : Nat) (feed_url title body : String)
    (link : Option String) (found created : Int) (guid author : Option String)
    (index : Int) (image_url : Option String) :
    (Source.create id feed_url).due_poll = datetime19000101 ∧
    datetime19000101 < 0 ∧
    (Source.create id feed_url).interval = 400 ∧
    (Source.create id feed_url).live = true ∧
    (Source.create id feed_url).max_index = 0 ∧
    (Source.create id feed_url).status_code = 0 ∧
    (Source.create id feed_url).is_cloudflare = false ∧
    (Post.create pid src title body link found created guid author index image_url).read
      = false ∧
    (Post.create pid src title body link found created guid author index image_url).starred
      = false :=
  ⟨rfl, by decide, rfl, rfl, rfl, rfl, rfl, rfl, rfl⟩

/-- C7: the default enumeration order of Posts (declared by
`Meta.ordering = ["index"]`) is ascending by `index`: any Post that comes
before another in `defaultOrder posts` has an `index` at most the later
one's, and the ordered list is a permutation of the input. -/
theorem default_order_by_index (posts : List Post) :
    (defaultOrder posts).Pairwise (fun p1 p2 => p1.index ≤ p2.index) ∧
    (defaultOrder posts).Perm posts := by
  constructor
  · have h := @List.sorted_mergeSort Post (fun p q => decide (p.index ≤ q.index))
      (fun a b c hab hbc =>
        decide_eq_true (le_trans (of_decide_eq_true hab) (of_decide_eq_true hbc)))
      (fun a b => by rcases le_total a.index b.index with h | h <;> simp [h])
      posts
    exact h.imp (fun hb => of_decide_eq_true hb)
  · exact List.mergeSort_perm posts _

/-- C8: when the Source primary keys are distinct (as a database
guarantees), a Source's `unread_posts_count` is the number of its Posts
with `read = false`, and a Category's `unread_posts_count` is the total
number of unread Posts over all the Sources that belong to it, which is
the sum of those Sources' unread counts. -/
theorem unread_counts_correct (db : DB) (c : Category)
    (hids : (db.sources.map Source.id).Nodup) :
    (∀ s : Source, s.unread_posts_count db
        = (db.posts.filter (fun p => p.source == s.id && !p.read)).length) ∧
    c.unread_posts_count db
        = (db.posts.filter (fun p => !p.read
            && db.sources.any (fun s => p.source == s.id && s.category == some c.id))).length ∧
    c.unread_posts_count db
        = ((db.sources.filter (fun s => s.category == some c.id)).map
            (fun s => s.unread_posts_count db)).sum := by
  refine ⟨fun s => rfl, ?_, rfl⟩
  exact sum_per_source_counts db.posts (fun s => s.category == some c.id)
    (fun p => !p.read) db.sources hids

/-- C8 witness: in the concrete database `dbW` (sources 1 and 2 in
category 10, source 3 uncategorised; unread posts on all three sources
but only the read flag of post 2 set), category 10's unread count equals
the number of unread posts over its two sources. -/
theorem unread_counts_correct_witness :
    (Category.mk 10 "News").unread_posts_count dbW
      = (dbW.posts.filter (fun p => !p.read
          && dbW.sources.any (fun s => p.source == s.id && s.category == some 10))).length :=
  (unread_counts_correct dbW (Category.mk 10 "News") (by decide)).2.1

/-- C9: the `title_url_encoded` property always evaluates to `None`: its
body computes the url-encoded title but contains no `return` statement. -/
theorem title_url_encoded_is_none (p : Post) : p.title_url_encoded = none := rfl

/-- C10: `display_name` follows the total fallback chain `name`, then
`site_url`, then `feed_url` (skipping a link that is `None` or empty), and
is therefore non-empty whenever `feed_url` is non-empty. -/
theorem display_name_fallback_chain (s : Source) :
    (∀ n, s.name = some n → n ≠ "" → s.display_name = n) ∧
    ((s.name = none ∨ s.name = some "") →
      ∀ u, s.site_url = some u → u ≠ "" → s.display_name = u) ∧
    ((s.name = none ∨ s.name = some "") → (s.site_url = none ∨ s.site_url = some "") →
      s.display_name = s.feed_url) ∧
    (s.feed_url ≠ "" → s.display_name ≠ "") := by
  refine ⟨?_, ?_, ?_, ?_⟩
  · intro n hn hne
    simp [Source.display_name, hn, hne]
  · rintro (h | h) u hu hue <;>
      simp [Source.display_name, Source.best_link, h, hu, hue]
  · rintro (h | h) (h2 | h2) <;>
      simp [Source.display_name, Source.best_link, h, h2]
  · intro hf
    rcases hn : s.name with _ | n <;> rcases hsu : s.site_url with _ | u <;>
      simp [Source.display_name, Source.best_link, hn, hsu] <;>
      (try split_ifs) <;> simp_all

/-- C10 witness: the concrete source `namedSource` carries the non-empty
name `"My Feed"`, so its `display_name` is that name, and it is
non-empty since its `feed_url` is non-empty. -/
theorem display_name_fallback_chain_witness :
    namedSource.display_name = "My Feed" ∧ namedSource.display_name ≠ "" :=
  ⟨(display_name_fallback_chain namedSource).1 "My Feed" rfl (by decide),
   (display_name_fallback_chain namedSource).2.2.2 (by decide)⟩

end FeedReader
